import Mathlib

/-!
Verification development for the cargo-embassy chip-classification and
build-configuration derivation engine (src/init.rs, src/main.rs).

The engine is embedded shallowly: external collaborators (the probe-rs chip
database, the file system, the cargo subprocess) are modelled as an `Env`
record of oracles, and each engine operation returns the ordered list of
artifact-emission events it performed together with an `Outcome` (success,
an `Error`, or a panic from an `unwrap`).
-/

namespace CargoEmbassy

/-- A flash/RAM address-range pair.  Mirrors `MemRegion` in
src/chip/family/mem_region.rs (used by `init_memory_x` in src/init.rs). -/
structure MemRegion where
  flash_origin : Nat
  flash_length : Nat
  ram_origin : Nat
  ram_length : Nat
deriving DecidableEq

/-- The closed set of silicon families; the `NRF` variant carries the
user-configured memory region.  Mirrors `Family` in src/chip/family.rs as
used by src/init.rs (`Family::STM32`, `Family::NRF(mem_reg)`). -/
inductive Family
  | STM32
  | NRF (mem : MemRegion)
deriving DecidableEq

/-- `matches!(chip.family, Family::NRF(_))` from src/init.rs line 50. -/
def Family.isNRF : Family → Bool
  | .NRF _ => true
  | .STM32 => false

/-- The resolved chip descriptor `{ name, family, target }`.  The toolchain
`Target` is an opaque string (spec section 3); src/init.rs only displays it. -/
structure Chip where
  name : String
  family : Family
  target : String
deriving DecidableEq

/-- Resolution failure detail.  `Unknown` appears in src/init.rs
(`InvalidChip::Unknown`); the remaining variants are the spec's
`UnclassifiedFamily` and `UnresolvedTarget` classification failures
(error.rs is not included under src/). -/
inductive InvalidChip
  | Unknown
  | UnclassifiedFamily
  | UnresolvedTarget
deriving DecidableEq

/-- The engine error type.  Every variant listed here is constructed in
src/init.rs (error.rs itself is not included under src/):
`Error::InvalidChip`, `Error::ErroneousSoftdevice`, `Error::CreateCargo`,
`Error::ChangeDir`, `Error::CreateFolder`, `Error::CreateFile`,
`Error::CargoAdd`. -/
inductive Error
  | InvalidChip (c : InvalidChip)
  | ErroneousSoftdevice
  | CreateCargo
  | ChangeDir
  | CreateFolder (path : String)
  | CreateFile (path : String)
  | CargoAdd (crate : String)
deriving DecidableEq

/-- A canonical chip record returned by `get_target_by_name`; src/init.rs
only uses its `name` field (`probe_target.name`). -/
structure ProbeTarget where
  name : String
deriving DecidableEq

/-- Modelled from the spec: `PanicHandler` is a closed set of supported
panic-handling crate choices (src/parser/init_args/panic_handler.rs is not
under src/); src/init.rs consumes it only through `panic_handler.str()`,
the chosen crate's identifier.  The spec does not enumerate the members;
the two panic-handler crates consumed by the generated projects are
panic-probe and panic-halt. -/
inductive PanicHandler
  | panicProbe
  | panicHalt
deriving DecidableEq

/-- `panic_handler.str()`: the crate identifier of the chosen handler. -/
def PanicHandler.str : PanicHandler → String
  | .panicProbe => "panic-probe"
  | .panicHalt => "panic-halt"

/-- Modelled from the spec: `Softdevice` is a closed set of supported
wireless-stack variants, each carrying its package identifier string
(src/parser/init_args/soft_device.rs is not under src/); src/init.rs
consumes it only through `softdevice.str()`.  The spec scenario names
`S140`; the variants are the nrf-softdevice package identifiers. -/
inductive Softdevice
  | s112
  | s113
  | s122
  | s132
  | s140
deriving DecidableEq

/-- `softdevice.str()`: the package identifier of the wireless stack. -/
def Softdevice.str : Softdevice → String
  | .s112 => "s112"
  | .s113 => "s113"
  | .s122 => "s122"
  | .s132 => "s132"
  | .s140 => "s140"

/-- The fields of `InitArgs` consumed by `Init::run_inner` in src/init.rs
(the clap parser itself is out of scope). -/
structure InitArgs where
  chip_name : String
  name : String
  panic_handler : PanicHandler
  softdevice : Option Softdevice

/-- The observable result of a finished subprocess: its exit status.
`Command::output()` in src/init.rs returns this on a successful spawn;
the engine never inspects it. -/
structure ProcOutput where
  status : Nat
deriving DecidableEq

/-- The collaborator oracles consumed by the engine (spec section 6): the
probe-rs chip database (`search_chips`, `get_target_by_name`), the cargo
subprocess (`cargo_new`, `cargo_add_exec` returning either a spawn-error
message or the process output), and the file system.  `none` / `Except.error`
means the corresponding call failed. -/
structure Env where
  search_chips : String → Option (List String)
  get_target_by_name : String → Option ProbeTarget
  cargo_new : String → Bool
  set_current_dir : String → Bool
  create_dir_all : String → Bool
  create_file_ok : String → Bool
  cargo_add_exec : String → List String → Bool → Except String ProcOutput
  open_manifest_ok : Bool
  manifest_contents : Option String
  append_patch_ok : Bool
  append_tail_ok : Bool

/-- One artifact-emission collaborator invocation made by the engine. -/
inductive Event
  | cargoNew (name : String)
  | setCurrentDir (path : String)
  | createDirAll (path : String)
  | fileWrite (path : String)
  | fileAppend (path : String)
  | cargoAdd (crate : String) (features : List String) (optional : Bool)
deriving DecidableEq

/-- The result of an engine step: `ok`, a returned `Error`, or a panic
(an `unwrap()` on a failed collaborator call). -/
inductive Outcome (α : Type)
  | ok (a : α)
  | err (e : Error)
  | panicked
deriving DecidableEq

/-- Sequencing of engine steps (the `?` operator): events accumulate in
order; an error or panic aborts the rest of the computation. -/
def step {α β : Type} (r : List Event × Outcome α) (f : α → List Event × Outcome β) :
    List Event × Outcome β :=
  match r with
  | (evs, .ok a) => ((evs ++ (f a).1), (f a).2)
  | (evs, .err e) => (evs, .err e)
  | (evs, .panicked) => (evs, .panicked)

/-- Character-wise canonical form used by the input normalization:
hyphen becomes underscore, letters are case-folded. -/
def normChar (c : Char) : Char :=
  Char.toLower (if c = '-' then '_' else c)

/-- `args.chip_name.replace('-', "_").to_lowercase()` from src/init.rs
line 45: Rust's single-character `replace` is a character map, followed by
character-wise lowercasing. -/
def normalize_chip_name (s : String) : String :=
  String.mk ((s.data.map (fun c => if c = '-' then '_' else c)).map Char.toLower)

/-- Boolean prefix test on strings (used by the spec-modelled classifier). -/
def strStartsWith (s p : String) : Bool :=
  p.data.isPrefixOf s.data

/-- Substring containment, `buf.contains("[features]")` in src/init.rs. -/
def strContains (s pat : String) : Bool :=
  decide (pat.data <:+: s.data)

/-- Modelled from the spec: the toolchain target derived from the core
variant substring embedded in the canonical identifier (spec section 4.1;
src/chip.rs and src/chip/target.rs are not under src/).  The spec pins only
the scenario "stm32f103c8 resolves to the cortex-m3 target"; the table
covers the series needed by the scenarios, and an unrecognizable core is a
hard error (`none`), not a guessed default. -/
def chip_core_target (s : String) : Option String :=
  if strStartsWith s "stm32f0" then some "thumbv6m-none-eabi"
  else if strStartsWith s "stm32f1" then some "thumbv7m-none-eabi"
  else if strStartsWith s "stm32f4" then some "thumbv7em-none-eabihf"
  else if strStartsWith s "nrf51" then some "thumbv6m-none-eabi"
  else if strStartsWith s "nrf52" then some "thumbv7em-none-eabihf"
  else none

/-- Modelled from the spec: the memory region carried by a freshly resolved
`NRF` chip.  The spec states the numeric values are supplied by the user at
emission time, not derived from the name (section 3); no claim depends on
the numbers, so a fixed placeholder region is used. -/
def default_nrf_region : MemRegion :=
  { flash_origin := 0, flash_length := 0, ram_origin := 0, ram_length := 0 }

/-- Modelled from the spec: `Chip::from_str` (`name.parse()` in
src/init.rs line 97; src/chip.rs is not under src/).  Spec section 4.1:
classification is a prefix match on the identifier against the known family
signatures; identifiers beginning with the STM32 prefix classify as
`STM32`, identifiers beginning with the NRF prefix classify as `NRF`, and
no match is the family-classification error.  The target comes from the
core-variant substring; an unrecognized core is the target-resolution
error. -/
def parse_chip (s : String) : Except Error Chip :=
  if strStartsWith s "stm32" then
    match chip_core_target s with
    | some t => .ok { name := s, family := .STM32, target := t }
    | none => .error (.InvalidChip .UnresolvedTarget)
  else if strStartsWith s "nrf" then
    match chip_core_target s with
    | some t => .ok { name := s, family := .NRF default_nrf_region, target := t }
    | none => .error (.InvalidChip .UnresolvedTarget)
  else .error (.InvalidChip .UnclassifiedFamily)

/-- `Init::get_target_info` (src/init.rs lines 87-101): search the chip
database; a search failure or an empty candidate list is
`InvalidChip::Unknown`; otherwise `get_target_by_name` is called on the
first candidate and its result is `unwrap()`ed (a failure there panics);
the chip descriptor is parsed from the (already normalized) input name.
No emission event is produced. -/
def get_target_info (env : Env) (name : String) : List Event × Outcome (Chip × String) :=
  ([], match env.search_chips name with
    | none => Outcome.err (Error.InvalidChip InvalidChip.Unknown)
    | some chips =>
      match chips.head? with
      | none => Outcome.err (Error.InvalidChip InvalidChip.Unknown)
      | some first =>
        match env.get_target_by_name first with
        | none => Outcome.panicked
        | some probe_target =>
          match parse_chip name with
          | Except.error e => Outcome.err e
          | Except.ok chip => Outcome.ok (chip, probe_target.name))

/-- The resolution portion of `Init::run_inner` (src/init.rs lines 45-47):
input normalization followed by `get_target_info`. -/
def resolve (env : Env) (raw : String) : List Event × Outcome (Chip × String) :=
  get_target_info env (normalize_chip_name raw)

/-- `Init::create_file` (src/init.rs lines 292-306): one file-system write
invocation; open/write failure is `Error::CreateFile(name)`. -/
def create_file (env : Env) (name : String) : List Event × Outcome Unit :=
  ([Event.fileWrite name],
    if env.create_file_ok name then Outcome.ok () else Outcome.err (Error.CreateFile name))

/-- `Init::cargo_add` (src/init.rs lines 308-329): one `cargo add`
invocation with the directive's feature list (`features.unwrap_or_default()`)
and optionality.  Only a spawn failure of the subprocess is mapped to
`Error::CargoAdd(name)` (the underlying failure value is discarded by
`map_err`); the process output, including its exit status, is ignored. -/
def cargo_add (env : Env) (name : String) (features : Option (List String)) (optional : Bool) :
    List Event × Outcome Unit :=
  ([Event.cargoAdd name (features.getD []) optional],
    match env.cargo_add_exec name (features.getD []) optional with
    | Except.error _ => Outcome.err (Error.CargoAdd name)
    | Except.ok _ => Outcome.ok ())

/-- `Init::create_project` (src/init.rs lines 77-85): `cargo new` then
`set_current_dir`. -/
def create_project (env : Env) (name : String) : List Event × Outcome Unit :=
  step ([Event.cargoNew name],
      if env.cargo_new name then Outcome.ok () else Outcome.err Error.CreateCargo) fun _ =>
  ([Event.setCurrentDir name],
      if env.set_current_dir name then Outcome.ok () else Outcome.err Error.ChangeDir)

/-- `Init::init_config` (src/init.rs lines 103-114): create the `.cargo`
folder, then write `.cargo/config.toml` (the target/chip only appear in the
rendered template text, which is not tracked). -/
def init_config (env : Env) (_target : String) (_chip : String) : List Event × Outcome Unit :=
  step ([Event.createDirAll ".cargo"],
      if env.create_dir_all ".cargo" then Outcome.ok ()
      else Outcome.err (Error.CreateFolder ".cargo")) fun _ =>
  create_file env ".cargo/config.toml"

/-- `Init::init_toolchain` (src/init.rs lines 116-124). -/
def init_toolchain (env : Env) (_target : String) : List Event × Outcome Unit :=
  create_file env "rust-toolchain.toml"

/-- `Init::init_embed` (src/init.rs lines 126-131). -/
def init_embed (env : Env) (_chip : String) : List Event × Outcome Unit :=
  create_file env "Embed.toml"

/-- `Init::init_build` (src/init.rs lines 133-140); the family only selects
the template text, which is not tracked. -/
def init_build (env : Env) (_family : Family) : List Event × Outcome Unit :=
  create_file env "build.rs"

/-- The `fs::OpenOptions::open("Cargo.toml")` call in `init_manifest`
(src/init.rs lines 213-217); a failure is `Error::CreateFile("Cargo.toml")`. -/
def open_manifest (env : Env) : List Event × Outcome Unit :=
  ([], if env.open_manifest_ok then Outcome.ok ()
       else Outcome.err (Error.CreateFile "Cargo.toml"))

/-- `file.read_to_string(&mut buf).unwrap()` (src/init.rs line 222): a read
failure panics. -/
def read_manifest (env : Env) : List Event × Outcome String :=
  ([], match env.manifest_contents with
    | some s => Outcome.ok s
    | none => Outcome.panicked)

/-- The feature-patch append to Cargo.toml (src/init.rs lines 223-226). -/
def append_patch (env : Env) : List Event × Outcome Unit :=
  ([Event.fileAppend "Cargo.toml"],
    if env.append_patch_ok then Outcome.ok () else Outcome.err (Error.CreateFile "Cargo.toml"))

/-- The final template append to Cargo.toml (src/init.rs lines 228-239);
which template is appended depends only on the softdevice choice and the
family, affecting the untracked text. -/
def append_tail (env : Env) : List Event × Outcome Unit :=
  ([Event.fileAppend "Cargo.toml"],
    if env.append_tail_ok then Outcome.ok () else Outcome.err (Error.CreateFile "Cargo.toml"))

/-- `Init::init_manifest` (src/init.rs lines 142-242): write Cargo.toml,
then the ordered sequence of `cargo add` directives (core async runtime
layer, family hardware-abstraction layer, optional wireless stack,
architecture/runtime support, diagnostics, chosen panic handler), then the
append patches. -/
def init_manifest (env : Env) (_name : String) (chip : Chip) (panic_handler : PanicHandler)
    (softdevice : Option Softdevice) : List Event × Outcome Unit :=
  step (create_file env "Cargo.toml") fun _ =>
  step (cargo_add env "embassy-executor"
      (some ["arch-cortex-m", "executor-thread", "integrated-timers"]) false) fun _ =>
  step (cargo_add env "embassy-sync" none false) fun _ =>
  step (cargo_add env "embassy-futures" none false) fun _ =>
  step (cargo_add env "embassy-time" (some ["tick-hz-32_768"]) false) fun _ =>
  step (match chip.family with
    | Family.STM32 =>
        cargo_add env "embassy-stm32"
          (some ["memory-x", chip.name, "time-driver-any", "exti", "unstable-pac"]) false
    | Family.NRF _ =>
        cargo_add env "embassy-nrf"
          (some [chip.name, "gpiote", "time-driver-rtc1"]) false) fun _ =>
  step (match softdevice with
    | some sd =>
        step (cargo_add env "nrf-softdevice"
            (some [chip.name, sd.str, "ble-peripheral", "ble-gatt-server",
              "critical-section-impl"]) false) fun _ =>
        cargo_add env ("nrf-softdevice-" ++ sd.str) none false
    | none => ([], Outcome.ok ())) fun _ =>
  step (cargo_add env "cortex-m"
      (some (if softdevice.isSome then ["inline-asm"]
             else ["inline-asm", "critical-section-single-core"])) false) fun _ =>
  step (cargo_add env "cortex-m-rt" none false) fun _ =>
  step (cargo_add env "defmt" none true) fun _ =>
  step (cargo_add env "defmt-rtt" none true) fun _ =>
  step (cargo_add env "panic-probe" (some ["print-defmt"]) true) fun _ =>
  step (cargo_add env panic_handler.str none false) fun _ =>
  step (open_manifest env) fun _ =>
  step (read_manifest env) fun buf =>
  step (if !(strContains buf "[features]") then append_patch env
        else ([], Outcome.ok ())) fun _ =>
  append_tail env

/-- `Init::init_fmt` (src/init.rs lines 244-246). -/
def init_fmt (env : Env) : List Event × Outcome Unit :=
  create_file env "src/fmt.rs"

/-- `Init::init_main` (src/init.rs lines 248-277); the (family, softdevice)
pair and the snake-cased panic handler only select and fill the template
text, which is not tracked. -/
def init_main (env : Env) (_family : Family) (_panic_handler : PanicHandler)
    (_softdevice : Option Softdevice) : List Event × Outcome Unit :=
  create_file env "src/main.rs"

/-- `Init::init_memory_x` (src/init.rs lines 279-290); the region's numbers
only appear in the rendered text. -/
def init_memory_x (env : Env) (_memory : MemRegion) : List Event × Outcome Unit :=
  create_file env "memory.x"

/-- The post-validation scaffold sequence of `Init::run_inner`
(src/init.rs lines 54-74): project creation and every artifact-emission
call, in source order; for `NRF` chips `memory.x` is also written (the
final progress println is untracked status reporting). -/
def run_scaffold (env : Env) (args : InitArgs) (chip : Chip) (probe_target_name : String) :
    List Event × Outcome Unit :=
  step (create_project env args.name) fun _ =>
  step (init_config env chip.target probe_target_name) fun _ =>
  step (init_toolchain env chip.target) fun _ =>
  step (init_embed env probe_target_name) fun _ =>
  step (init_build env chip.family) fun _ =>
  step (init_manifest env args.name chip args.panic_handler args.softdevice) fun _ =>
  step (init_fmt env) fun _ =>
  step (init_main env chip.family args.panic_handler args.softdevice) fun _ =>
  match chip.family with
  | Family.NRF mem_reg => init_memory_x env mem_reg
  | Family.STM32 => ([], Outcome.ok ())

/-- `Init::run_inner` (src/init.rs lines 43-75): normalize the chip name,
resolve it, validate the softdevice/family combination
(`args.softdevice.is_some() && !matches!(chip.family, Family::NRF(_))`),
then run the scaffold sequence. -/
def run_inner (env : Env) (args : InitArgs) : List Event × Outcome Unit :=
  step (resolve env args.chip_name) fun cpt =>
  if args.softdevice.isSome && !cpt.1.family.isNRF then
    ([], Outcome.err Error.ErroneousSoftdevice)
  else run_scaffold env args cpt.1 cpt.2

/-- Errors raised before any artifact emission begins: the resolution
failures (`InvalidChip`) and the softdevice validation failure
(`ErroneousSoftdevice`); spec section 7 groups them against the
emission-phase failures. -/
def Error.isClassification : Error → Bool
  | .InvalidChip _ => true
  | .ErroneousSoftdevice => true
  | _ => false

/-- An engine computation that never fails with a classification or
validation error (its errors all belong to the emission phase). -/
def NoClassErr {α : Type} (r : List Event × Outcome α) : Prop :=
  ∀ e, r.2 = Outcome.err e → e.isClassification = false

/-- All dependency-add directives for a given crate in an emission trace:
their feature lists and optionality, in order. -/
def addsOf (crate : String) (evs : List Event) : List (List String × Bool) :=
  evs.filterMap fun e =>
    match e with
    | Event.cargoAdd c fs opt => if c = crate then some (fs, opt) else none
    | _ => none

/-- An environment in which every collaborator call succeeds (cargo spawns
exit with status 0, the manifest is readable). -/
def EnvOk (env : Env) : Prop :=
  (∀ n, env.cargo_new n = true) ∧
  (∀ n, env.set_current_dir n = true) ∧
  (∀ p, env.create_dir_all p = true) ∧
  (∀ p, env.create_file_ok p = true) ∧
  (∀ n f o, env.cargo_add_exec n f o = Except.ok { status := 0 }) ∧
  env.open_manifest_ok = true ∧
  (∃ s, env.manifest_contents = some s) ∧
  env.append_patch_ok = true ∧
  env.append_tail_ok = true

/-- Character lists that differ only in hyphen-versus-underscore separator
choice and in letter case: the two characters at each position share their
canonical form. -/
def differOnlySepCase : List Char → List Char → Bool
  | [], [] => true
  | a :: as, b :: bs => if normChar a = normChar b then differOnlySepCase as bs else false
  | _, _ => false

/-- A fully succeeding environment whose chip database knows
"stm32f103c8". -/
def envStm32 : Env where
  search_chips := fun _ => some ["stm32f103c8"]
  get_target_by_name := fun _ => some { name := "STM32F103C8" }
  cargo_new := fun _ => true
  set_current_dir := fun _ => true
  create_dir_all := fun _ => true
  create_file_ok := fun _ => true
  cargo_add_exec := fun _ _ _ => Except.ok { status := 0 }
  open_manifest_ok := true
  manifest_contents := some ""
  append_patch_ok := true
  append_tail_ok := true

/-- An environment identical to `envStm32` except that the file-system
write of rust-toolchain.toml fails. -/
def envToolchainFails : Env :=
  { envStm32 with create_file_ok := fun p => p != "rust-toolchain.toml" }

/-- An environment whose chip-database search itself fails. -/
def envSearchFails : Env :=
  { envStm32 with search_chips := fun _ => none }

/-- An environment where describing the first candidate fails. -/
def envDescribeFails : Env :=
  { envStm32 with get_target_by_name := fun _ => none }

/-- An environment whose search returns candidates for a query that does
not itself classify ("foo" yields the stm32f103c8 record first). -/
def envFooSearch : Env :=
  { envStm32 with search_chips := fun _ => some ["stm32f103c8", "stm32f407vg"] }

/-- An environment whose cargo-add subprocess spawns but exits with a
failure status. -/
def envAddExitsNonzero : Env :=
  { envStm32 with cargo_add_exec := fun _ _ _ => Except.ok { status := 101 } }

/-- An environment whose cargo-add subprocess fails to spawn. -/
def envAddSpawnFails : Env :=
  { envStm32 with cargo_add_exec := fun _ _ _ => Except.error "No such file or directory" }

/-- The chip descriptor `resolve` produces for "stm32f103c8". -/
def chipF103 : Chip :=
  { name := "stm32f103c8", family := Family.STM32, target := "thumbv7m-none-eabi" }

/-- An arbitrary resolved NRF descriptor used to instantiate theorems. -/
def chipNrf52840 : Chip :=
  { name := "nrf52840", family := Family.NRF default_nrf_region,
    target := "thumbv7em-none-eabihf" }

/-- Concrete arguments: an stm32f103c8 project asking for the S140 stack. -/
def argsStm32Sd : InitArgs :=
  { chip_name := "stm32f103c8", name := "app", panic_handler := PanicHandler.panicProbe,
    softdevice := some Softdevice.s140 }

/-- Concrete arguments: an stm32f103c8 project with no wireless stack. -/
def argsStm32Plain : InitArgs :=
  { chip_name := "stm32f103c8", name := "app", panic_handler := PanicHandler.panicProbe,
    softdevice := none }

/-! ### Helper lemmas -/

theorem step_ok {α β : Type} (evs : List Event) (a : α) (f : α → List Event × Outcome β) :
    step (evs, Outcome.ok a) f = ((evs ++ (f a).1), (f a).2) := rfl

theorem step_err {α β : Type} (evs : List Event) (e : Error) (f : α → List Event × Outcome β) :
    step (evs, Outcome.err e) f = (evs, Outcome.err e) := rfl

theorem step_panicked {α β : Type} (evs : List Event) (f : α → List Event × Outcome β) :
    step (evs, Outcome.panicked) f = (evs, Outcome.panicked) := rfl

theorem resolve_fst (env : Env) (raw : String) : (resolve env raw).1 = [] := rfl

theorem noClassErr_step {α β : Type} {r : List Event × Outcome α}
    {f : α → List Event × Outcome β} (h1 : NoClassErr r) (h2 : ∀ a, NoClassErr (f a)) :
    NoClassErr (step r f) := by
  rcases r with ⟨evs, o⟩
  cases o with
  | ok a => intro e he; exact h2 a e (by simpa [step] using he)
  | err e0 =>
      intro e he
      simp [step] at he
      exact he ▸ h1 e0 rfl
  | panicked => intro e he; simp [step] at he

theorem noClassErr_create_file (env : Env) (p : String) : NoClassErr (create_file env p) := by
  intro e he
  cases hb : env.create_file_ok p <;> simp [create_file, hb] at he
  exact he ▸ rfl

theorem noClassErr_cargo_add (env : Env) (n : String) (f : Option (List String)) (o : Bool) :
    NoClassErr (cargo_add env n f o) := by
  intro e he
  cases hx : env.cargo_add_exec n (f.getD []) o <;> simp [cargo_add, hx] at he
  exact he ▸ rfl

theorem noClassErr_create_project (env : Env) (n : String) :
    NoClassErr (create_project env n) := by
  refine noClassErr_step ?_ fun _ => ?_ <;> intro e he <;>
    first
    | (cases hb : env.cargo_new n <;> simp [hb] at he; exact he ▸ rfl)
    | (cases hb : env.set_current_dir n <;> simp [hb] at he; exact he ▸ rfl)

theorem noClassErr_init_config (env : Env) (t c : String) :
    NoClassErr (init_config env t c) := by
  refine noClassErr_step ?_ fun _ => noClassErr_create_file env _
  intro e he
  cases hb : env.create_dir_all ".cargo" <;> simp [hb] at he
  exact he ▸ rfl

theorem noClassErr_open_manifest (env : Env) : NoClassErr (open_manifest env) := by
  intro e he
  cases hb : env.open_manifest_ok <;> simp [open_manifest, hb] at he
  exact he ▸ rfl

theorem noClassErr_read_manifest (env : Env) : NoClassErr (read_manifest env) := by
  intro e he
  cases hb : env.manifest_contents <;> simp [read_manifest, hb] at he

theorem noClassErr_append_patch (env : Env) : NoClassErr (append_patch env) := by
  intro e he
  cases hb : env.append_patch_ok <;> simp [append_patch, hb] at he
  exact he ▸ rfl

theorem noClassErr_append_tail (env : Env) : NoClassErr (append_tail env) := by
  intro e he
  cases hb : env.append_tail_ok <;> simp [append_tail, hb] at he
  exact he ▸ rfl

theorem noClassErr_init_manifest (env : Env) (nm : String) (chip : Chip)
    (ph : PanicHandler) (sd : Option Softdevice) :
    NoClassErr (init_manifest env nm chip ph sd) := by
  unfold init_manifest
  refine noClassErr_step (noClassErr_create_file _ _) fun _ => ?_
  refine noClassErr_step (noClassErr_cargo_add _ _ _ _) fun _ => ?_
  refine noClassErr_step (noClassErr_cargo_add _ _ _ _) fun _ => ?_
  refine noClassErr_step (noClassErr_cargo_add _ _ _ _) fun _ => ?_
  refine noClassErr_step (noClassErr_cargo_add _ _ _ _) fun _ => ?_
  refine noClassErr_step ?_ fun _ => ?_
  · cases chip.family <;> exact noClassErr_cargo_add _ _ _ _
  refine noClassErr_step ?_ fun _ => ?_
  · cases sd with
    | none => intro e he; simp at he
    | some s =>
        exact noClassErr_step (noClassErr_cargo_add _ _ _ _) fun _ =>
          noClassErr_cargo_add _ _ _ _
  refine noClassErr_step (noClassErr_cargo_add _ _ _ _) fun _ => ?_
  refine noClassErr_step (noClassErr_cargo_add _ _ _ _) fun _ => ?_
  refine noClassErr_step (noClassErr_cargo_add _ _ _ _) fun _ => ?_
  refine noClassErr_step (noClassErr_cargo_add _ _ _ _) fun _ => ?_
  refine noClassErr_step (noClassErr_cargo_add _ _ _ _) fun _ => ?_
  refine noClassErr_step (noClassErr_cargo_add _ _ _ _) fun _ => ?_
  refine noClassErr_step (noClassErr_open_manifest _) fun _ => ?_
  refine noClassErr_step (noClassErr_read_manifest _) fun buf => ?_
  refine noClassErr_step ?_ fun _ => noClassErr_append_tail _
  split
  · exact noClassErr_append_patch _
  · intro e he; simp at he

theorem noClassErr_run_scaffold (env : Env) (args : InitArgs) (chip : Chip) (pt : String) :
    NoClassErr (run_scaffold env args chip pt) := by
  unfold run_scaffold
  refine noClassErr_step (noClassErr_create_project _ _) fun _ => ?_
  refine noClassErr_step (noClassErr_init_config _ _ _) fun _ => ?_
  refine noClassErr_step (noClassErr_create_file _ _) fun _ => ?_
  refine noClassErr_step (noClassErr_create_file _ _) fun _ => ?_
  refine noClassErr_step (noClassErr_create_file _ _) fun _ => ?_
  refine noClassErr_step (noClassErr_init_manifest _ _ _ _ _) fun _ => ?_
  refine noClassErr_step (noClassErr_create_file _ _) fun _ => ?_
  refine noClassErr_step (noClassErr_create_file _ _) fun _ => ?_
  cases chip.family with
  | NRF mem => exact noClassErr_create_file _ _
  | STM32 => intro e he; simp at he

theorem map_normChar_eq : ∀ l₁ l₂, differOnlySepCase l₁ l₂ = true →
    l₁.map normChar = l₂.map normChar
  | [], [], _ => rfl
  | a :: as, b :: bs, h => by
      unfold differOnlySepCase at h
      split at h
      next hab => simp [hab, map_normChar_eq as bs h]
      next => exact Bool.noConfusion h
  | [], _ :: _, h => by simp [differOnlySepCase] at h
  | _ :: _, [], h => by simp [differOnlySepCase] at h

theorem normalize_eq_of_differOnlySepCase (s₁ s₂ : String)
    (h : differOnlySepCase s₁.data s₂.data = true) :
    normalize_chip_name s₁ = normalize_chip_name s₂ := by
  unfold normalize_chip_name
  rw [List.map_map, List.map_map]
  exact congrArg String.mk (map_normChar_eq s₁.data s₂.data h)

/-! ### Claim theorems -/

/-- C1: for every resolved chip and every requested softdevice, if a
softdevice is requested and the chip's family is not NRF then `run_inner`
fails with `ErroneousSoftdevice` (emitting nothing); and if the family is
NRF then `run_inner` never fails with that error, for any softdevice
choice. -/
theorem softdevice_validation (env : Env) (args : InitArgs) (chip : Chip) (pt : String)
    (hres : resolve env args.chip_name = ([], Outcome.ok (chip, pt))) :
    (args.softdevice.isSome = true → chip.family.isNRF = false →
        run_inner env args = ([], Outcome.err Error.ErroneousSoftdevice)) ∧
    (chip.family.isNRF = true →
        (run_inner env args).2 ≠ Outcome.err Error.ErroneousSoftdevice) := by
  constructor
  · intro hsd hfam
    unfold run_inner
    rw [hres]
    simp [step, hsd, hfam]
  · intro hfam
    unfold run_inner
    rw [hres]
    simp [step, hfam]
    intro hcon
    have h2 := noClassErr_run_scaffold env args chip pt Error.ErroneousSoftdevice hcon
    simp [Error.isClassification] at h2

/-- Witness for C1 at a concrete input: an STM32 chip with the S140
softdevice requested fails with the incompatible-softdevice error. -/
theorem softdevice_validation_witness :
    run_inner envStm32 argsStm32Sd = ([], Outcome.err Error.ErroneousSoftdevice) :=
  (softdevice_validation envStm32 argsStm32Sd chipF103 "STM32F103C8"
    (by decide)).1 (by decide) (by decide)

/-- C2 (counterexample): the engine can return an error after artifact
emission has begun — when the rust-toolchain.toml write fails, the error is
returned although `.cargo/config.toml` was already written (and `cargo new`
invoked), refuting "on any error no artifact-emission call has been made". -/
theorem emission_error_after_emission :
    run_inner envToolchainFails argsStm32Plain
      = ([Event.cargoNew "app", Event.setCurrentDir "app", Event.createDirAll ".cargo",
          Event.fileWrite ".cargo/config.toml", Event.fileWrite "rust-toolchain.toml"],
         Outcome.err (Error.CreateFile "rust-toolchain.toml")) ∧
    Event.fileWrite ".cargo/config.toml" ∈ (run_inner envToolchainFails argsStm32Plain).1 := by
  constructor
  · decide
  · decide

/-- C2 (amended): whenever `run_inner` returns a resolution or validation
error (`InvalidChip` or `ErroneousSoftdevice`), no artifact-emission
collaborator call has been made: the emitted event list is empty. -/
theorem classification_errors_emit_nothing (env : Env) (args : InitArgs)
    (h : ∃ e, (run_inner env args).2 = Outcome.err e ∧ e.isClassification = true) :
    (run_inner env args).1 = [] := by
  obtain ⟨e, he, hclass⟩ := h
  unfold run_inner at he ⊢
  rcases hres : resolve env args.chip_name with ⟨revs, ro⟩
  have hrevs : revs = [] := by
    have h0 := resolve_fst env args.chip_name
    rw [hres] at h0
    exact h0
  subst hrevs
  cases ro with
  | ok cpt =>
      rw [hres] at he
      by_cases hval : (args.softdevice.isSome && !cpt.1.family.isNRF) = true
      · simp [step, hval]
      · rw [Bool.not_eq_true] at hval
        simp [step, hval] at he
        have h2 := noClassErr_run_scaffold env args cpt.1 cpt.2 e he
        rw [hclass] at h2
        exact absurd h2 (by simp)
  | err e0 => simp [step]
  | panicked =>
      rw [hres] at he
      simp [step] at he

/-- Witness for C2 at a concrete input: the incompatible-softdevice run
emits no events. -/
theorem classification_errors_emit_nothing_witness :
    (run_inner envStm32 argsStm32Sd).1 = [] :=
  classification_errors_emit_nothing envStm32 argsStm32Sd
    ⟨Error.ErroneousSoftdevice, by decide, by decide⟩

/-- C3 (counterexample): a package-manager invocation that spawns but exits
with a failure status is treated as success — the collaborator's reported
failure is silently ignored, refuting "no collaborator failure is silently
ignored". -/
theorem cargo_add_ignores_exit_status :
    envAddExitsNonzero.cargo_add_exec "embassy-sync" [] false
        = Except.ok { status := 101 } ∧
    (101 : Nat) ≠ 0 ∧
    cargo_add envAddExitsNonzero "embassy-sync" none false
      = ([Event.cargoAdd "embassy-sync" [] false], Outcome.ok ()) := by
  refine ⟨rfl, by decide, by decide⟩

/-- C3 (amended): for every dependency-add directive, the invocation is
recorded, a spawn failure of the package-manager collaborator yields
`Error::CargoAdd` naming that directive's crate (the collaborator's own
error value is discarded), and a successful spawn yields success regardless
of the process's exit status. -/
theorem cargo_add_spawn_failure_reports (env : Env) (n : String)
    (f : Option (List String)) (o : Bool) :
    (cargo_add env n f o).1 = [Event.cargoAdd n (f.getD []) o] ∧
    (∀ msg, env.cargo_add_exec n (f.getD []) o = Except.error msg →
        (cargo_add env n f o).2 = Outcome.err (Error.CargoAdd n)) ∧
    (∀ out, env.cargo_add_exec n (f.getD []) o = Except.ok out →
        (cargo_add env n f o).2 = Outcome.ok ()) := by
  refine ⟨rfl, ?_, ?_⟩ <;> intro x hx <;> simp [cargo_add, hx]

/-- Witness for C3 at a concrete input: a spawn failure surfaces as the
CargoAdd error for the defmt directive. -/
theorem cargo_add_spawn_failure_reports_witness :
    (cargo_add envAddSpawnFails "defmt" none true).2
      = Outcome.err (Error.CargoAdd "defmt") :=
  (cargo_add_spawn_failure_reports envAddSpawnFails "defmt" none true).2.1
    "No such file or directory" rfl

/-- C4 (counterexample): the chip descriptor is not built from the first
search candidate — for the query "foo" the first candidate "stm32f103c8"
classifies as STM32, yet resolution fails with the family-classification
error because the descriptor is parsed from the raw query itself. -/
theorem descriptor_not_from_candidate :
    envFooSearch.search_chips "foo" = some ["stm32f103c8", "stm32f407vg"] ∧
    parse_chip "stm32f103c8" = Except.ok chipF103 ∧
    chipF103.family = Family.STM32 ∧
    get_target_info envFooSearch "foo"
      = ([], Outcome.err (Error.InvalidChip InvalidChip.UnclassifiedFamily)) :=
  ⟨rfl, rfl, rfl, by decide⟩

/-- C4 (amended): zero candidates (a failed search or an empty result)
yield the unknown-chip error; with one or more candidates the first
candidate alone determines the probe target name, while the chip descriptor
is parsed from the (normalized) query name itself; candidates beyond the
first never influence the result. -/
theorem first_candidate_policy (env : Env) (name : String) :
    ((env.search_chips name = none ∨ env.search_chips name = some []) →
        get_target_info env name
          = ([], Outcome.err (Error.InvalidChip InvalidChip.Unknown))) ∧
    (∀ c cs pt, env.search_chips name = some (c :: cs) →
        env.get_target_by_name c = some pt →
        get_target_info env name
          = ([], match parse_chip name with
                 | Except.error e => Outcome.err e
                 | Except.ok chip => Outcome.ok (chip, pt.name))) ∧
    (∀ c cs cs', env.search_chips name = some (c :: cs) →
        get_target_info
          { env with search_chips :=
              fun q => if q = name then some (c :: cs') else env.search_chips q } name
          = get_target_info
              { env with search_chips :=
                  fun q => if q = name then some (c :: cs) else env.search_chips q } name) := by
  refine ⟨?_, ?_, ?_⟩
  · rintro (h | h) <;> simp [get_target_info, h]
  · intro c cs pt h1 h2
    simp [get_target_info, h1, h2]
  · intro c cs cs' h1
    simp [get_target_info]

/-- Witness for C4 at concrete inputs: a failed search yields the
unknown-chip error. -/
theorem first_candidate_policy_witness :
    get_target_info envSearchFails "stm32f103c8"
      = ([], Outcome.err (Error.InvalidChip InvalidChip.Unknown)) :=
  (first_candidate_policy envSearchFails "stm32f103c8").1 (Or.inl rfl)

/-- C8: resolution is a pure function of the normalized input — two raw
chip names that differ only in hyphen-versus-underscore separators and in
letter case resolve to identical results (in particular identical `Chip`
values). -/
theorem resolution_normalization (env : Env) (raw₁ raw₂ : String)
    (h : differOnlySepCase raw₁.data raw₂.data = true) :
    resolve env raw₁ = resolve env raw₂ := by
  unfold resolve
  rw [normalize_eq_of_differOnlySepCase raw₁ raw₂ h]

/-- Witness for C8 at the spec's concrete pair of raw names. -/
theorem resolution_normalization_witness :
    differOnlySepCase "STM32F4-something".data "stm32f4_something".data = true ∧
    resolve envStm32 "STM32F4-something" = resolve envStm32 "stm32f4_something" :=
  ⟨by decide,
   resolution_normalization envStm32 "STM32F4-something" "stm32f4_something" (by decide)⟩

/-- C10: when the search succeeds with at least one candidate, resolution
proceeds only if describing the first candidate succeeds — a failing
`get_target_by_name` on the first candidate makes the program panic (the
`unwrap()` in `get_target_info`) instead of returning a declared error,
while a successful describe never panics. -/
theorem describe_failure_panics (env : Env) (name c : String) (cs : List String)
    (h1 : env.search_chips name = some (c :: cs)) :
    (env.get_target_by_name c = none →
        get_target_info env name = ([], Outcome.panicked)) ∧
    (∀ pt, env.get_target_by_name c = some pt →
        (get_target_info env name).2 ≠ Outcome.panicked) := by
  constructor
  · intro h2
    simp [get_target_info, h1, h2]
  · intro pt h2
    simp [get_target_info, h1, h2]
    cases hp : parse_chip name <;> simp

/-- Witness for C10 at a concrete input: a failing describe call on the
first candidate panics. -/
theorem describe_failure_panics_witness :
    get_target_info envDescribeFails "stm32f103c8" = ([], Outcome.panicked) :=
  (describe_failure_panics envDescribeFails "stm32f103c8" "stm32f103c8" []
    rfl).1 rfl

theorem addsOf_nil_of_no_adds (crate : String) : ∀ l : List Event,
    (∀ e ∈ l, ∀ c fs o, e ≠ Event.cargoAdd c fs o) → addsOf crate l = []
  | [], _ => rfl
  | a :: as, h => by
      have has : ∀ e ∈ as, ∀ c fs o, e ≠ Event.cargoAdd c fs o :=
        fun e he => h e (List.mem_cons_of_mem a he)
      have ih := addsOf_nil_of_no_adds crate as has
      cases a with
      | cargoAdd c fs o => exact absurd rfl (h _ (List.mem_cons_self _ _) c fs o)
      | cargoNew n => simpa [addsOf] using ih
      | setCurrentDir p => simpa [addsOf] using ih
      | createDirAll p => simpa [addsOf] using ih
      | fileWrite p => simpa [addsOf] using ih
      | fileAppend p => simpa [addsOf] using ih

theorem addsOf_append (crate : String) (l₁ l₂ : List Event) :
    addsOf crate (l₁ ++ l₂) = addsOf crate l₁ ++ addsOf crate l₂ := by
  simp [addsOf]

theorem addsOf_cons (crate : String) (e : Event) (evs : List Event) :
    addsOf crate (e :: evs)
      = (match e with
         | Event.cargoAdd c fs o => if c = crate then [(fs, o)] else []
         | _ => []) ++ addsOf crate evs := by
  cases e with
  | cargoAdd c fs o => by_cases h : c = crate <;> simp [addsOf, List.filterMap_cons, h]
  | cargoNew n => simp [addsOf, List.filterMap_cons]
  | setCurrentDir p => simp [addsOf, List.filterMap_cons]
  | createDirAll p => simp [addsOf, List.filterMap_cons]
  | fileWrite p => simp [addsOf, List.filterMap_cons]
  | fileAppend p => simp [addsOf, List.filterMap_cons]

/-- Evaluation of `init_manifest` in a fully succeeding environment: the
emitted trace is the Cargo.toml write, the ordered dependency-add
directives of src/init.rs lines 155-211, and a cargo-add-free tail (the
manifest appends). -/
theorem init_manifest_events (env : Env) (nm : String) (chip : Chip) (ph : PanicHandler)
    (sd : Option Softdevice) (henv : EnvOk env) :
    ∃ tail, (init_manifest env nm chip ph sd).1
      = Event.fileWrite "Cargo.toml"
        :: Event.cargoAdd "embassy-executor"
             ["arch-cortex-m", "executor-thread", "integrated-timers"] false
        :: Event.cargoAdd "embassy-sync" [] false
        :: Event.cargoAdd "embassy-futures" [] false
        :: Event.cargoAdd "embassy-time" ["tick-hz-32_768"] false
        :: (match chip.family with
            | Family.STM32 =>
                Event.cargoAdd "embassy-stm32"
                  ["memory-x", chip.name, "time-driver-any", "exti", "unstable-pac"] false
            | Family.NRF _ =>
                Event.cargoAdd "embassy-nrf" [chip.name, "gpiote", "time-driver-rtc1"] false)
        :: ((match sd with
             | some s =>
                 [Event.cargoAdd "nrf-softdevice"
                    [chip.name, s.str, "ble-peripheral", "ble-gatt-server",
                      "critical-section-impl"] false,
                  Event.cargoAdd ("nrf-softdevice-" ++ s.str) [] false]
             | none => [])
            ++ Event.cargoAdd "cortex-m"
                 (if sd.isSome then ["inline-asm"]
                  else ["inline-asm", "critical-section-single-core"]) false
            :: Event.cargoAdd "cortex-m-rt" [] false
            :: Event.cargoAdd "defmt" [] true
            :: Event.cargoAdd "defmt-rtt" [] true
            :: Event.cargoAdd "panic-probe" ["print-defmt"] true
            :: Event.cargoAdd ph.str [] false
            :: tail)
      ∧ ∀ e ∈ tail, ∀ c fs o, e ≠ Event.cargoAdd c fs o := by
  obtain ⟨-, -, -, h4, h5, h6, ⟨buf, h7⟩, h8, h9⟩ := henv
  cases hbuf : strContains buf "[features]" with
  | false =>
      refine ⟨[Event.fileAppend "Cargo.toml", Event.fileAppend "Cargo.toml"], ?_, ?_⟩
      · cases hfam : chip.family <;> cases sd <;>
          simp [init_manifest, step, create_file, cargo_add, open_manifest, read_manifest,
            append_patch, append_tail, h4, h5, h6, h7, h8, h9, hbuf, hfam]
      · intro e he c fs o
        simp only [List.mem_cons, List.not_mem_nil, or_false] at he
        rcases he with he | he <;> subst he <;> simp
  | true =>
      refine ⟨[Event.fileAppend "Cargo.toml"], ?_, ?_⟩
      · cases hfam : chip.family <;> cases sd <;>
          simp [init_manifest, step, create_file, cargo_add, open_manifest, read_manifest,
            append_patch, append_tail, h4, h5, h6, h7, h8, h9, hbuf, hfam]
      · intro e he c fs o
        simp only [List.mem_cons, List.not_mem_nil, or_false] at he
        subst he
        simp

/-- C5: for every STM32 chip, the hardware-abstraction directive's feature
list is exactly the memory-layout flag, the chip identifier, the any-timer
time-driver flag, exti, and unstable-pac — and it is the only
embassy-stm32 directive in the plan. -/
theorem stm32_hal_features (env : Env) (nm : String) (chip : Chip) (ph : PanicHandler)
    (sd : Option Softdevice) (henv : EnvOk env) (hfam : chip.family = Family.STM32) :
    addsOf "embassy-stm32" (init_manifest env nm chip ph sd).1
      = [(["memory-x", chip.name, "time-driver-any", "exti", "unstable-pac"], false)] := by
  obtain ⟨tail, hevs, htail⟩ := init_manifest_events env nm chip ph sd henv
  have htail0 : addsOf "embassy-stm32" tail = [] := addsOf_nil_of_no_adds _ _ htail
  cases sd with
  | none =>
      cases ph <;>
        simp [hevs, hfam, addsOf_cons, addsOf_append, htail0, PanicHandler.str]
  | some s =>
      cases ph <;> cases s <;>
        simp [hevs, hfam, addsOf_cons, addsOf_append, htail0, PanicHandler.str,
          Softdevice.str]

/-- Witness for C5 at a concrete input. -/
theorem stm32_hal_features_witness :
    addsOf "embassy-stm32"
        (init_manifest envStm32 "app" chipF103 PanicHandler.panicProbe none).1
      = [(["memory-x", "stm32f103c8", "time-driver-any", "exti", "unstable-pac"], false)] :=
  stm32_hal_features envStm32 "app" chipF103 PanicHandler.panicProbe none
    ⟨fun _ => rfl, fun _ => rfl, fun _ => rfl, fun _ => rfl, fun _ _ _ => rfl, rfl,
      ⟨"", rfl⟩, rfl, rfl⟩ rfl

/-- C6: for every NRF chip, the hardware-abstraction directive's feature
list is exactly the chip identifier, gpiote, and the RTC1 time driver (and
it is the only embassy-nrf directive); and when a wireless stack is
requested, a nrf-softdevice directive carrying the chip identifier, the
stack's package identifier, ble-peripheral and ble-gatt-server is emitted,
immediately followed by the companion directive for the stack's helper
crate. -/
theorem nrf_hal_and_softdevice_features (env : Env) (nm : String) (chip : Chip)
    (ph : PanicHandler) (sd : Option Softdevice) (mr : MemRegion) (henv : EnvOk env)
    (hfam : chip.family = Family.NRF mr) :
    addsOf "embassy-nrf" (init_manifest env nm chip ph sd).1
      = [([chip.name, "gpiote", "time-driver-rtc1"], false)] ∧
    (∀ s, sd = some s →
      ∃ pre rest, (init_manifest env nm chip ph sd).1
        = pre ++ Event.cargoAdd "nrf-softdevice"
              [chip.name, s.str, "ble-peripheral", "ble-gatt-server",
                "critical-section-impl"] false
            :: Event.cargoAdd ("nrf-softdevice-" ++ s.str) [] false :: rest) := by
  obtain ⟨tail, hevs, htail⟩ := init_manifest_events env nm chip ph sd henv
  constructor
  · have htail0 : addsOf "embassy-nrf" tail = [] := addsOf_nil_of_no_adds _ _ htail
    cases sd with
    | none =>
        cases ph <;>
          simp [hevs, hfam, addsOf_cons, addsOf_append, htail0, PanicHandler.str]
    | some s =>
        cases ph <;> cases s <;>
          simp [hevs, hfam, addsOf_cons, addsOf_append, htail0, PanicHandler.str,
            Softdevice.str]
  · rintro s rfl
    refine ⟨[Event.fileWrite "Cargo.toml",
             Event.cargoAdd "embassy-executor"
               ["arch-cortex-m", "executor-thread", "integrated-timers"] false,
             Event.cargoAdd "embassy-sync" [] false,
             Event.cargoAdd "embassy-futures" [] false,
             Event.cargoAdd "embassy-time" ["tick-hz-32_768"] false,
             Event.cargoAdd "embassy-nrf" [chip.name, "gpiote", "time-driver-rtc1"] false],
            Event.cargoAdd "cortex-m" ["inline-asm"] false
              :: Event.cargoAdd "cortex-m-rt" [] false
              :: Event.cargoAdd "defmt" [] true
              :: Event.cargoAdd "defmt-rtt" [] true
              :: Event.cargoAdd "panic-probe" ["print-defmt"] true
              :: Event.cargoAdd ph.str [] false
              :: tail, ?_⟩
    simp [hevs, hfam]

/-- Witness for C6 at a concrete input. -/
theorem nrf_hal_and_softdevice_features_witness :
    addsOf "embassy-nrf"
        (init_manifest envStm32 "app" chipNrf52840 PanicHandler.panicProbe
          (some Softdevice.s140)).1
      = [(["nrf52840", "gpiote", "time-driver-rtc1"], false)] ∧
    (∃ pre rest, (init_manifest envStm32 "app" chipNrf52840 PanicHandler.panicProbe
          (some Softdevice.s140)).1
        = pre ++ Event.cargoAdd "nrf-softdevice"
              ["nrf52840", "s140", "ble-peripheral", "ble-gatt-server",
                "critical-section-impl"] false
            :: Event.cargoAdd ("nrf-softdevice-" ++ "s140") [] false :: rest) := by
  have h := nrf_hal_and_softdevice_features envStm32 "app" chipNrf52840
    PanicHandler.panicProbe (some Softdevice.s140) default_nrf_region
    ⟨fun _ => rfl, fun _ => rfl, fun _ => rfl, fun _ => rfl, fun _ _ _ => rfl, rfl,
      ⟨"", rfl⟩, rfl, rfl⟩ rfl
  exact ⟨h.1, h.2 Softdevice.s140 rfl⟩

/-- C7: for an NRF chip with a wireless stack requested, the
hardware-abstraction directive occurs strictly before the wireless-stack
directive in the emitted plan: the trace splits at the embassy-nrf
directive and the nrf-softdevice directive occurs only after it. -/
theorem hal_before_softdevice (env : Env) (nm : String) (chip : Chip) (ph : PanicHandler)
    (s : Softdevice) (mr : MemRegion) (henv : EnvOk env)
    (hfam : chip.family = Family.NRF mr) :
    ∃ pre rest, (init_manifest env nm chip ph (some s)).1
        = pre ++ Event.cargoAdd "embassy-nrf" [chip.name, "gpiote", "time-driver-rtc1"]
              false :: rest
      ∧ Event.cargoAdd "nrf-softdevice"
          [chip.name, s.str, "ble-peripheral", "ble-gatt-server", "critical-section-impl"]
          false ∉ pre
      ∧ Event.cargoAdd "nrf-softdevice"
          [chip.name, s.str, "ble-peripheral", "ble-gatt-server", "critical-section-impl"]
          false ∈ rest := by
  obtain ⟨tail, hevs, htail⟩ := init_manifest_events env nm chip ph (some s) henv
  refine ⟨[Event.fileWrite "Cargo.toml",
           Event.cargoAdd "embassy-executor"
             ["arch-cortex-m", "executor-thread", "integrated-timers"] false,
           Event.cargoAdd "embassy-sync" [] false,
           Event.cargoAdd "embassy-futures" [] false,
           Event.cargoAdd "embassy-time" ["tick-hz-32_768"] false],
          Event.cargoAdd "nrf-softdevice"
              [chip.name, s.str, "ble-peripheral", "ble-gatt-server",
                "critical-section-impl"] false
            :: Event.cargoAdd ("nrf-softdevice-" ++ s.str) [] false
            :: Event.cargoAdd "cortex-m" ["inline-asm"] false
            :: Event.cargoAdd "cortex-m-rt" [] false
            :: Event.cargoAdd "defmt" [] true
            :: Event.cargoAdd "defmt-rtt" [] true
            :: Event.cargoAdd "panic-probe" ["print-defmt"] true
            :: Event.cargoAdd ph.str [] false
            :: tail, ?_, ?_, ?_⟩
  · simp [hevs, hfam]
  · simp
  · simp

/-- Witness for C7 at a concrete input. -/
theorem hal_before_softdevice_witness :
    ∃ pre rest, (init_manifest envStm32 "app" chipNrf52840 PanicHandler.panicProbe
        (some Softdevice.s140)).1
      = pre ++ Event.cargoAdd "embassy-nrf" ["nrf52840", "gpiote", "time-driver-rtc1"]
            false :: rest
      ∧ Event.cargoAdd "nrf-softdevice"
          ["nrf52840", "s140", "ble-peripheral", "ble-gatt-server", "critical-section-impl"]
          false ∉ pre
      ∧ Event.cargoAdd "nrf-softdevice"
          ["nrf52840", "s140", "ble-peripheral", "ble-gatt-server", "critical-section-impl"]
          false ∈ rest :=
  hal_before_softdevice envStm32 "app" chipNrf52840 PanicHandler.panicProbe
    Softdevice.s140 default_nrf_region
    ⟨fun _ => rfl, fun _ => rfl, fun _ => rfl, fun _ => rfl, fun _ _ _ => rfl, rfl,
      ⟨"", rfl⟩, rfl, rfl⟩ rfl

/-- C9: the cortex-m directive carries critical-section-single-core exactly
when no wireless stack is requested; when one is requested, the cortex-m
directive carries only inline-asm and the critical-section implementation
feature is carried by the nrf-softdevice directive instead. -/
theorem critical_section_feature_placement (env : Env) (nm : String) (chip : Chip)
    (ph : PanicHandler) (sd : Option Softdevice) (henv : EnvOk env) :
    ((Event.cargoAdd "cortex-m" ["inline-asm", "critical-section-single-core"] false
        ∈ (init_manifest env nm chip ph sd).1) ↔ sd = none) ∧
    (∀ s, sd = some s →
      Event.cargoAdd "cortex-m" ["inline-asm"] false ∈ (init_manifest env nm chip ph sd).1 ∧
      ∃ fs, Event.cargoAdd "nrf-softdevice" fs false ∈ (init_manifest env nm chip ph sd).1 ∧
        "critical-section-impl" ∈ fs) := by
  obtain ⟨tail, hevs, htail⟩ := init_manifest_events env nm chip ph sd henv
  have htail2 :
      Event.cargoAdd "cortex-m" ["inline-asm", "critical-section-single-core"] false
        ∉ tail :=
    fun hm => htail _ hm _ _ _ rfl
  constructor
  · cases sd with
    | none => cases hfam : chip.family <;> simp [hevs, hfam]
    | some s => cases hfam : chip.family <;> simp [hevs, hfam, htail2]
  · rintro s rfl
    refine ⟨?_, [chip.name, s.str, "ble-peripheral", "ble-gatt-server",
        "critical-section-impl"], ?_, ?_⟩
    · cases hfam : chip.family <;> simp [hevs, hfam]
    · cases hfam : chip.family <;> simp [hevs, hfam]
    · simp

/-- Witness for C9 at a concrete input. -/
theorem critical_section_feature_placement_witness :
    ((Event.cargoAdd "cortex-m" ["inline-asm", "critical-section-single-core"] false
        ∈ (init_manifest envStm32 "app" chipF103 PanicHandler.panicProbe none).1)
      ↔ (none : Option Softdevice) = none) :=
  (critical_section_feature_placement envStm32 "app" chipF103 PanicHandler.panicProbe none
    ⟨fun _ => rfl, fun _ => rfl, fun _ => rfl, fun _ => rfl, fun _ _ _ => rfl, rfl,
      ⟨"", rfl⟩, rfl, rfl⟩).1

end CargoEmbassy
